import Mathlib

/-!
Verification development for the Here2Run run-tracking session controller.

The definitions below are a shallow embedding of the TypeScript source:
 - the tracking screen's session state and its handlers
   (handleStartRun, handlePauseResume, handleLocationUpdate,
   loadExistingTrackingData, the elapsed-time tick effect),
 - the background location task executor (defineBackgroundTask's callback),
 - the foreground watcher callback filter (locationService.startLocationTracking),
 - the segment derivation coordinatesToSegments from utils/metrics.ts.

Timestamps (epoch milliseconds) and durations are modelled as Int; latitude
and longitude as Int (the claims under study never depend on fractional
coordinates); metric distances as Rat.  The Haversine distance
(calculateDistance) is transcendental floating-point arithmetic, so every
definition that computes a distance is parametrised by a distance function
`d : Int → Int → Int → Int → Rat`; no theorem below depends on the value of
a distance.  JavaScript truthiness tests on numbers (`if (x)`, `x || y`)
are modelled explicitly: a numeric value is falsy exactly when it is 0, and
a missing optional is falsy.
-/

/-- `x || dflt` on an optional JS number: `none` and `some 0` are falsy. -/
def jsOrElse (o : Option Int) (dflt : Int) : Int :=
  match o with
  | some v => if v = 0 then dflt else v
  | none => dflt

/-- `x || undefined` on an optional JS number: coerces a present 0 to absent. -/
def jsOrUndefined (o : Option Int) : Option Int :=
  match o with
  | some v => if v = 0 then none else some v
  | none => none

/-- Origin tag of an accepted GPS sample (`source` field in the source). -/
inductive LocationSource where
  | foreground
  | background
deriving DecidableEq, Repr

/-- `RouteCoordinate` from src/types/run.ts, restricted to the fields the
tracking controller reads or writes.  `segmentIndex` is stored as a plain
Nat: the source writes it as `coordinate.segmentIndex || 0`, and `x || 0`
is the identity on natural numbers.  Background-task points are created
without a `segmentIndex`, which persistence coerces to 0, modelled by
constructing them with `segmentIndex := 0`. -/
structure RouteCoordinate where
  latitude : Int
  longitude : Int
  accuracy : Option Int := none
  altitude : Option Int := none
  timestamp : Int
  source : LocationSource
  segmentIndex : Nat
deriving DecidableEq, Repr

/-- `RouteSegment` from src/types/run.ts. -/
structure RouteSegment where
  segmentIndex : Nat
  coordinates : List RouteCoordinate
  distance : Rat
  duration : Int
  startTime : Int
  endTime : Int
deriving DecidableEq, Repr

/-- `UserLocation` from the location service (the value handed to
`handleLocationUpdate`). -/
structure UserLocation where
  latitude : Int
  longitude : Int
  accuracy : Option Int := none
  altitude : Option Int := none
  timestamp : Option Int := none
deriving DecidableEq, Repr

/-- The tracking screen's mutable session state: the React `useState`
fields of TrackingScreen that constitute the live run session, plus the
`lastLocationTime` ref used by the foreground rate limiter. -/
structure TrackingState where
  isTracking : Bool
  isPaused : Bool
  startTime : Option Int
  totalPausedTime : Int
  pauseStartTime : Option Int
  currentRunId : Option String
  route : List RouteCoordinate
  currentSegmentIndex : Nat
  currentSegmentStartTime : Option Int
  segments : List RouteSegment
  elapsedTime : Int
  lastLocationTime : Int
deriving DecidableEq, Repr

/-- The component's initial state: the `useState` defaults of
TrackingScreen (`useRef(0)` for `lastLocationTime`). -/
def initialTrackingState : TrackingState :=
  { isTracking := false
    isPaused := false
    startTime := none
    totalPausedTime := 0
    pauseStartTime := none
    currentRunId := none
    route := []
    currentSegmentIndex := 0
    currentSegmentStartTime := none
    segments := []
    elapsedTime := 0
    lastLocationTime := 0 }

/-- The snapshot persisted by `storageService.saveCurrentTrackingData` and
returned by `getCurrentTrackingData` (the "current tracking" slot). -/
structure TrackingSnapshot where
  id : String
  startTime : Int
  route : List RouteCoordinate
  isTracking : Bool
  isPaused : Bool
  currentSegmentIndex : Nat
  totalPausedTime : Int
  pauseStartTime : Option Int
  currentSegmentStartTime : Option Int
  elapsedTime : Int
deriving DecidableEq, Repr

/-- `calculateTotalDistance` from utils/metrics.ts: the pairwise sum of
consecutive distances (also the shape of the `reduce` in
handlePauseResume's pause branch).  Parametrised by the distance
function. -/
def calculateTotalDistance (d : Int → Int → Int → Int → Rat) :
    List RouteCoordinate → Rat
  | c1 :: c2 :: rest =>
      d c1.latitude c1.longitude c2.latitude c2.longitude +
        calculateTotalDistance d (c2 :: rest)
  | _ => 0

/-- `handleStartRun` from the tracking screen.  `hasPerms` is the combined
outcome of the permission check/request; `watcherOk` is the result of
`locationService.startRunTracking`.  Returns the new screen state and the
contents of the snapshot store.  On permission failure nothing changes; on
watcher failure the handler resets the state fields listed at lines
602-611 of the source and clears the stored snapshot.  Note the failure
cleanup does not reset `currentSegmentStartTime` or the
`lastLocationTime` ref. -/
def handleStartRun (s : TrackingState) (store : Option TrackingSnapshot)
    (hasPerms : Bool) (now : Int) (watcherOk : Bool) :
    TrackingState × Option TrackingSnapshot :=
  if !hasPerms then (s, store)
  else
    let runId := "run_" ++ toString now
    let started : TrackingState :=
      { isTracking := true
        isPaused := false
        startTime := some now
        totalPausedTime := 0
        pauseStartTime := none
        currentRunId := some runId
        route := []
        currentSegmentIndex := 0
        currentSegmentStartTime := some now
        segments := []
        elapsedTime := 0
        lastLocationTime := now }
    let snap : TrackingSnapshot :=
      { id := runId
        startTime := now
        route := []
        isTracking := true
        isPaused := false
        currentSegmentIndex := 0
        totalPausedTime := 0
        pauseStartTime := none
        currentSegmentStartTime := some now
        elapsedTime := 0 }
    if watcherOk then (started, some snap)
    else
      ({ started with
          isTracking := false
          isPaused := false
          startTime := none
          currentRunId := none
          route := []
          currentSegmentIndex := 0
          elapsedTime := 0
          totalPausedTime := 0
          pauseStartTime := none },
        none)

/-- The segment closed by handlePauseResume's pause branch: coordinates of
the current segment, their pairwise distance, duration
`Math.floor((now - currentSegmentStartTime) / 1000)`. -/
def closeCurrentSegment (d : Int → Int → Int → Int → Rat)
    (route : List RouteCoordinate) (idx : Nat) (cst now : Int) :
    RouteSegment :=
  let coords := route.filter (fun c => c.segmentIndex == idx)
  { segmentIndex := idx
    coordinates := coords
    distance := calculateTotalDistance d coords
    duration := Int.fdiv (now - cst) 1000
    startTime := cst
    endTime := now }

/-- `handlePauseResume` from the tracking screen.  A single toggle handler:
if the session is paused it resumes (subject to the GPS availability
check `gpsOk`, an early return leaving the state unchanged on failure),
otherwise it pauses.  The trailing storage write and the watcher
start/stop side effects do not modify the screen state (a failed watcher
restart on resume only logs a warning) and are not modelled. -/
def handlePauseResume (d : Int → Int → Int → Int → Rat)
    (s : TrackingState) (now : Int) (gpsOk : Bool) : TrackingState :=
  if s.isPaused then
    if !gpsOk then s
    else
      let s1 :=
        match s.pauseStartTime with
        | some p =>
            if p = 0 then s
            else
              { s with
                  totalPausedTime := s.totalPausedTime + (now - p)
                  pauseStartTime := none }
        | none => s
      { s1 with
          isPaused := false
          lastLocationTime := now
          currentSegmentIndex := s.currentSegmentIndex + 1
          currentSegmentStartTime := some now }
  else
    let s1 :=
      match s.currentSegmentStartTime with
      | some cst =>
          if cst = 0 then s
          else
            { s with
                segments := s.segments ++
                  [closeCurrentSegment d s.route s.currentSegmentIndex cst now] }
      | none => s
    { s1 with
        pauseStartTime := some now
        isPaused := true }

/-- `handleLocationUpdate` from the tracking screen (foreground samples).
`inProgress` models the `isLocationUpdateInProgress` re-entrancy flag.
A fix is dropped when not tracking or paused, when it arrives less than
500 ms of wall-clock time after the last accepted one, or when a present
nonzero accuracy exceeds 50 m; otherwise it is appended to the route
tagged `foreground` with the current segment index.  The asynchronous
snapshot write does not change the screen state and is not modelled. -/
def handleLocationUpdate (s : TrackingState) (loc : UserLocation)
    (now : Int) (inProgress : Bool) : TrackingState :=
  if inProgress then s
  else if !s.isTracking || s.isPaused then s
  else
    let timeSinceLastUpdate := now - s.lastLocationTime
    let hasGoodAccuracy :=
      match loc.accuracy with
      | some a => if a = 0 then true else decide (a ≤ 50)
      | none => true
    if timeSinceLastUpdate < 500 || !hasGoodAccuracy then s
    else
      let newPoint : RouteCoordinate :=
        { latitude := loc.latitude
          longitude := loc.longitude
          accuracy := loc.accuracy
          altitude := loc.altitude
          timestamp := jsOrElse loc.timestamp now
          source := LocationSource.foreground
          segmentIndex := s.currentSegmentIndex }
      { s with
          route := s.route ++ [newPoint]
          lastLocationTime := now }

/-- `loadExistingTrackingData` from the tracking screen: on mount, read the
snapshot and, when it exists with `isTracking` set, reconstruct the
session with `isPaused := true` and `pauseStartTime := now` (the recovery
wall-clock time); otherwise leave the state alone.  `existingData.elapsedTime
|| 0`, `totalPausedTime || 0`, `currentSegmentIndex || 0` and
`route || []` are identities on the modelled types and are written
directly. -/
def loadExistingTrackingData (s : TrackingState)
    (existing : Option TrackingSnapshot) (now : Int) : TrackingState :=
  match existing with
  | some dta =>
      if dta.isTracking then
        { s with
            isTracking := true
            isPaused := true
            startTime := some dta.startTime
            currentRunId := some dta.id
            route := dta.route
            currentSegmentIndex := dta.currentSegmentIndex
            currentSegmentStartTime := some (jsOrElse dta.currentSegmentStartTime dta.startTime)
            elapsedTime := dta.elapsedTime
            totalPausedTime := dta.totalPausedTime
            pauseStartTime := some now }
      else s
  | none => s

/-- The fast elapsed-time interval effect of TrackingScreen: when
`isTracking && !isPaused && startTime` (truthy), each tick recomputes
`elapsedTime := Math.floor((now - startTime - totalPausedTime) / 1000)`;
otherwise the interval is cleared and `elapsedTime` is not touched. -/
def elapsedTick (s : TrackingState) (now : Int) : TrackingState :=
  match s.startTime with
  | some st =>
      if s.isTracking && !s.isPaused && (st != 0) then
        { s with elapsedTime := Int.fdiv (now - st - s.totalPausedTime) 1000 }
      else s
  | none => s

/-- Raw platform location objects delivered to the watchers
(expo-location `LocationObject`): nested `coords` plus a timestamp. -/
structure RawCoords where
  latitude : Int
  longitude : Int
  accuracy : Option Int := none
  altitude : Option Int := none
deriving DecidableEq, Repr

/-- One raw location fix from a platform watcher. -/
structure RawLocation where
  coords : RawCoords
  timestamp : Int
deriving DecidableEq, Repr

/-- The per-fix filter of the background task (defineBackgroundTask,
part_006 lines 67-105), applied with the `lastProcessedTimestamp` value
held at entry (the whole `filter` runs before the `map` that updates it).
The first failing rule drops the fix: accuracy (truthy and > 25 m),
staleness (truthy timestamp older than 15 s), non-increasing timestamp,
invalid coordinates (falsy latitude/longitude or out of range). -/
def bgAccept (now lastProcessed : Int) (l : RawLocation) : Bool :=
  if (match l.coords.accuracy with
      | some a => !(a == 0) && decide (25 < a)
      | none => false) then false
  else if (l.timestamp != 0) && decide (15000 < now - l.timestamp) then false
  else if (l.timestamp != 0) && decide (l.timestamp ≤ lastProcessed) then false
  else if (l.coords.latitude == 0) || (l.coords.longitude == 0) ||
      decide (90 < l.coords.latitude.natAbs) ||
      decide (180 < l.coords.longitude.natAbs) then false
  else true

/-- The background task's point construction: `timestamp || Date.now()`,
`altitude/accuracy || undefined`, source tagged `background`.  The source
omits `segmentIndex` on these points; persistence stores it as
`coordinate.segmentIndex || 0`, so the point is modelled with
`segmentIndex := 0`. -/
def bgProcess (now : Int) (l : RawLocation) : RouteCoordinate :=
  { latitude := l.coords.latitude
    longitude := l.coords.longitude
    altitude := jsOrUndefined l.coords.altitude
    accuracy := jsOrUndefined l.coords.accuracy
    timestamp := if l.timestamp = 0 then now else l.timestamp
    source := LocationSource.background
    segmentIndex := 0 }

/-- The timestamps already present in a stored route, as collected by the
background task's duplicate check (`route.filter(p => p.timestamp)` keeps
truthy timestamps only). -/
def existingTimestamps (route : List RouteCoordinate) : List Int :=
  (route.filter (fun p => p.timestamp != 0)).map (fun p => p.timestamp)

/-- The executor body of the background location task
(defineBackgroundTask, part_006): given the stored snapshot, a burst of
raw fixes, the wall clock and the module-level `lastProcessedTimestamp`,
it returns the new store contents and the new `lastProcessedTimestamp`.
Mirrors the source's early returns: no locations, no snapshot, not
tracking or paused, everything filtered, everything duplicate. -/
def backgroundLocationTask (store : Option TrackingSnapshot)
    (locations : List RawLocation) (now lastProcessed : Int) :
    Option TrackingSnapshot × Int :=
  if locations.isEmpty then (store, lastProcessed)
  else
    match store with
    | none => (none, lastProcessed)
    | some dta =>
        if !dta.isTracking || dta.isPaused then (some dta, lastProcessed)
        else
          let filteredLocations := locations.filter (bgAccept now lastProcessed)
          if filteredLocations.isEmpty then (some dta, lastProcessed)
          else
            let processedPoints := filteredLocations.map (bgProcess now)
            let newLast := processedPoints.foldl
              (fun acc p => if acc < p.timestamp then p.timestamp else acc)
              lastProcessed
            let existing := existingTimestamps dta.route
            let newPoints := processedPoints.filter
              (fun p => !(existing.contains p.timestamp))
            if newPoints.isEmpty then (some dta, newLast)
            else (some { dta with route := dta.route ++ newPoints }, newLast)

/-- The foreground watcher callback filter
(locationService.startLocationTracking, part_004 lines 145-195): rate
limit of 800 ms against the service's own last accepted timestamp,
accuracy (truthy and > 25 m), invalid coordinates.  On acceptance it
yields the `UserLocation` handed to `handleLocationUpdate` and the
updated service timestamp. -/
def watchCallback (serviceLast : Int) (l : RawLocation) (now : Int) :
    Option UserLocation × Int :=
  let timestamp := if l.timestamp = 0 then now else l.timestamp
  if timestamp - serviceLast < 800 then (none, serviceLast)
  else if (match l.coords.accuracy with
      | some a => !(a == 0) && decide (25 < a)
      | none => false) then (none, serviceLast)
  else if (l.coords.latitude == 0) || (l.coords.longitude == 0) ||
      decide (90 < l.coords.latitude.natAbs) ||
      decide (180 < l.coords.longitude.natAbs) then (none, serviceLast)
  else
    (some { latitude := l.coords.latitude
            longitude := l.coords.longitude
            accuracy := jsOrUndefined l.coords.accuracy
            altitude := jsOrUndefined l.coords.altitude
            timestamp := some timestamp },
      timestamp)

/-- The distinct segment indices of a coordinate list in first-occurrence
order: the key set of the `Map` built by coordinatesToSegments (JS `Map`
iterates keys in insertion order).  `coord.segmentIndex || 0` is the
identity on Nat. -/
def segmentKeysStep (ks : List Nat) (c : RouteCoordinate) : List Nat :=
  if ks.contains c.segmentIndex then ks else ks ++ [c.segmentIndex]

/-- Fold of `segmentKeysStep` over the coordinate list, starting from the
empty key list. -/
def segmentKeys (coordinates : List RouteCoordinate) : List Nat :=
  coordinates.foldl segmentKeysStep []

/-- One derived segment of coordinatesToSegments: its coordinates, their
pairwise distance, and start/end/duration taken over the truthy
timestamps (min/max, `Math.floor((end - start) / 1000)`); all three stay
0 when no coordinate has a truthy timestamp. -/
def mkDerivedSegment (d : Int → Int → Int → Int → Rat) (k : Nat)
    (segmentCoords : List RouteCoordinate) : RouteSegment :=
  let timestamped := segmentCoords.filter (fun c => c.timestamp != 0)
  let ts := timestamped.map (fun c => c.timestamp)
  let dse : Int × Int × Int :=
    match ts with
    | [] => (0, 0, 0)
    | t :: rest =>
        let startTime := rest.foldl (fun a b => if b < a then b else a) t
        let endTime := rest.foldl (fun a b => if a < b then b else a) t
        (Int.fdiv (endTime - startTime) 1000, startTime, endTime)
  { segmentIndex := k
    coordinates := segmentCoords
    distance := calculateTotalDistance d segmentCoords
    duration := dse.1
    startTime := dse.2.1
    endTime := dse.2.2 }

/-- Stable insertion of a segment into a list ascending by
`segmentIndex`. -/
def insertBySegmentIndex (s : RouteSegment) :
    List RouteSegment → List RouteSegment
  | [] => [s]
  | t :: ts =>
      if s.segmentIndex ≤ t.segmentIndex then s :: t :: ts
      else t :: insertBySegmentIndex s ts

/-- The ascending sort `segments.sort((a, b) => a.segmentIndex -
b.segmentIndex)` at the end of coordinatesToSegments. -/
def sortBySegmentIndex : List RouteSegment → List RouteSegment
  | [] => []
  | s :: ss => insertBySegmentIndex s (sortBySegmentIndex ss)

/-- `coordinatesToSegments` from utils/metrics.ts: group the flat
coordinate list by `segmentIndex`, derive each segment's metrics, and
sort the result by `segmentIndex`. -/
def coordinatesToSegments (d : Int → Int → Int → Int → Rat)
    (coordinates : List RouteCoordinate) : List RouteSegment :=
  sortBySegmentIndex
    ((segmentKeys coordinates).map
      (fun k => mkDerivedSegment d k
        (coordinates.filter (fun c => c.segmentIndex == k))))

/-- A concrete distance function used to instantiate the distance
parameter in concrete evaluations; every statement evaluated with it is
independent of the distance values involved. -/
def distZero : Int → Int → Int → Int → Rat := fun _ _ _ _ => 0

/-- Scenario: a run started at t = 1000 ms (permissions granted, watchers
started). -/
def scenStart : TrackingState :=
  (handleStartRun initialTrackingState none true 1000 true).1

/-- Scenario: the first foreground fix, at timestamp 2000 ms. -/
def scenLoc1 : UserLocation :=
  { latitude := 50, longitude := 30, timestamp := some 2000 }

/-- Scenario state after the first accepted fix. -/
def scenFix1 : TrackingState := handleLocationUpdate scenStart scenLoc1 2000 false

/-- Scenario state after pausing at t = 3000 ms. -/
def scenPause1 : TrackingState := handlePauseResume distZero scenFix1 3000 true

/-- Scenario state after resuming at t = 4000 ms (GPS available). -/
def scenResume1 : TrackingState := handlePauseResume distZero scenPause1 4000 true

/-- Scenario state after pausing again at t = 5000 ms with no fix accepted
in between: segment 1 closes empty. -/
def scenPause2 : TrackingState := handlePauseResume distZero scenResume1 5000 true

/-- Scenario state after resuming at t = 6000 ms: segment index 2 opens. -/
def scenResume2 : TrackingState := handlePauseResume distZero scenPause2 6000 true

/-- Scenario: a second foreground fix, at timestamp 7000 ms. -/
def scenLoc2 : UserLocation :=
  { latitude := 51, longitude := 31, timestamp := some 7000 }

/-- Scenario state after the second accepted fix (lands in segment 2). -/
def scenFix2 : TrackingState := handleLocationUpdate scenResume2 scenLoc2 7000 false

/-- A snapshot recording an actively-tracking (not paused) session, used
to instantiate the recovery theorem. -/
def c1Snap : TrackingSnapshot :=
  { id := "run_1000"
    startTime := 1000
    route := []
    isTracking := true
    isPaused := false
    currentSegmentIndex := 0
    totalPausedTime := 0
    pauseStartTime := none
    currentSegmentStartTime := some 1000
    elapsedTime := 0 }

/-- A recovered (hence paused) scenario snapshot used to instantiate the
background half of the C5 theorem. -/
def c5Snap : TrackingSnapshot :=
  { id := "run_1000"
    startTime := 1000
    route := []
    isTracking := true
    isPaused := true
    currentSegmentIndex := 0
    totalPausedTime := 0
    pauseStartTime := some 3000
    currentSegmentStartTime := some 1000
    elapsedTime := 2
    }

/-- A snapshot with a nonzero persisted pause timestamp and paused-time
accumulator, used to instantiate the C10 theorem. -/
def c10Snap : TrackingSnapshot :=
  { id := "run_1000"
    startTime := 1000
    route := []
    isTracking := true
    isPaused := false
    currentSegmentIndex := 0
    totalPausedTime := 700
    pauseStartTime := some 2000
    currentSegmentStartTime := some 1000
    elapsedTime := 2 }

/-- A raw background fix with timestamp 5000 and valid coordinates. -/
def c4Raw : RawLocation :=
  { coords := { latitude := 50, longitude := 30 }, timestamp := 5000 }

/-- Store contents after the background task accepts `c4Raw` into the
snapshot written by a Start at t = 1000. -/
def c4Store : Option TrackingSnapshot :=
  (backgroundLocationTask
    (handleStartRun initialTrackingState none true 1000 true).2
    [c4Raw] 5100 0).1

/-- Screen state after an app restart recovers `c4Store` at t = 6000: the
route now holds the background sample with timestamp 5000. -/
def c4Recovered : TrackingState :=
  loadExistingTrackingData initialTrackingState c4Store 6000

/-- Screen state after the user resumes the recovered session at
t = 6500 (GPS available). -/
def c4Resumed : TrackingState := handlePauseResume distZero c4Recovered 6500 true

/-- A stored snapshot of a tracking session whose route already holds a
background sample with timestamp 5000. -/
def c4DupSnap : TrackingSnapshot :=
  { id := "run_1000"
    startTime := 1000
    route := [{ latitude := 50, longitude := 30, timestamp := 5000,
                source := LocationSource.background, segmentIndex := 0 }]
    isTracking := true
    isPaused := false
    currentSegmentIndex := 0
    totalPausedTime := 0
    pauseStartTime := none
    currentSegmentStartTime := some 1000
    elapsedTime := 0 }

/-- C1: for every persisted snapshot whose `isTracking` flag is true,
session reconstruction at startup yields a session with
`isTracking = true` and `isPaused = true` — the Paused state — regardless
of the snapshot's stored `isPaused` value. -/
theorem recovery_always_paused (s : TrackingState) (dta : TrackingSnapshot)
    (now : Int) (h : dta.isTracking = true) :
    (loadExistingTrackingData s (some dta) now).isTracking = true ∧
    (loadExistingTrackingData s (some dta) now).isPaused = true := by
  simp [loadExistingTrackingData, h]


/-- Witness for C1 at a snapshot stored with `isPaused = false`. -/
theorem recovery_always_paused_witness :
    c1Snap.isTracking = true ∧ c1Snap.isPaused = false ∧
    (loadExistingTrackingData initialTrackingState (some c1Snap) 9000).isPaused = true :=
  ⟨by decide, by decide,
    (recovery_always_paused initialTrackingState c1Snap 9000 (by decide)).2⟩

/-- C5: no sample is appended while the session is not Tracking.  For the
foreground handler, if the session is not tracking or is paused the route
is unchanged; for the background task, if the stored snapshot is absent,
not tracking, or paused, the stored snapshot is unchanged. -/
theorem no_append_when_not_tracking :
    (∀ (s : TrackingState) (loc : UserLocation) (now : Int) (inProgress : Bool),
      s.isTracking = false ∨ s.isPaused = true →
      (handleLocationUpdate s loc now inProgress).route = s.route) ∧
    (∀ (dta : TrackingSnapshot) (locations : List RawLocation) (now lastProcessed : Int),
      dta.isTracking = false ∨ dta.isPaused = true →
      (backgroundLocationTask (some dta) locations now lastProcessed).1 = some dta) ∧
    (∀ (locations : List RawLocation) (now lastProcessed : Int),
      (backgroundLocationTask none locations now lastProcessed).1 = none) := by
  refine ⟨?_, ?_, ?_⟩
  · intro s loc now inProgress h
    unfold handleLocationUpdate
    rcases h with h | h <;> simp [h]
  · intro dta locations now lastProcessed h
    unfold backgroundLocationTask
    rcases h with h | h <;> simp [h]
  · intro locations now lastProcessed
    unfold backgroundLocationTask
    simp


/-- Witness for C5: a paused screen state drops a foreground fix, and a
paused stored snapshot makes the background task a no-op. -/
theorem no_append_when_not_tracking_witness :
    (scenPause1.isPaused = true ∧
      (handleLocationUpdate scenPause1 scenLoc2 7000 false).route = scenPause1.route) ∧
    (c5Snap.isPaused = true ∧
      (backgroundLocationTask (some c5Snap)
        [{ coords := { latitude := 50, longitude := 30 }, timestamp := 3500 }]
        4000 0).1 = some c5Snap) ∧
    (backgroundLocationTask none [] 4000 0).1 = none :=
  ⟨⟨by decide,
      no_append_when_not_tracking.1 scenPause1 scenLoc2 7000 false (Or.inr (by decide))⟩,
   ⟨by decide,
      no_append_when_not_tracking.2.1 c5Snap
        [{ coords := { latitude := 50, longitude := 30 }, timestamp := 3500 }]
        4000 0 (Or.inr (by decide))⟩,
   no_append_when_not_tracking.2.2 [] 4000 0⟩

/-- C6: resume semantics.  For a Paused session with a truthy
`pauseStartTime = p`: a failed GPS availability check leaves the state
unchanged; a successful resume at `now` adds `now − p` to
`totalPausedTime`, clears `pauseStartTime`, and opens segment
`currentSegmentIndex + 1` at `startTime = now`.  When
`currentSegmentIndex` bounds the indices of all closed segments (as in
every reachable state), the new index strictly exceeds every previously
allocated segment index. -/
theorem resume_semantics (d : Int → Int → Int → Int → Rat)
    (s : TrackingState) (now p : Int)
    (hp : s.isPaused = true) (hps : s.pauseStartTime = some p) (hpz : p ≠ 0)
    (hmax : ∀ seg ∈ s.segments, seg.segmentIndex ≤ s.currentSegmentIndex) :
    handlePauseResume d s now false = s ∧
    (handlePauseResume d s now true).totalPausedTime = s.totalPausedTime + (now - p) ∧
    (handlePauseResume d s now true).pauseStartTime = none ∧
    (handlePauseResume d s now true).currentSegmentIndex = s.currentSegmentIndex + 1 ∧
    (handlePauseResume d s now true).currentSegmentStartTime = some now ∧
    ∀ seg ∈ s.segments,
      seg.segmentIndex < (handlePauseResume d s now true).currentSegmentIndex := by
  have hR : handlePauseResume d s now true =
      { s with
          totalPausedTime := s.totalPausedTime + (now - p)
          pauseStartTime := none
          isPaused := false
          lastLocationTime := now
          currentSegmentIndex := s.currentSegmentIndex + 1
          currentSegmentStartTime := some now } := by
    unfold handlePauseResume
    simp [hp, hps, hpz]
  refine ⟨?_, ?_, ?_, ?_, ?_, ?_⟩
  · unfold handlePauseResume
    simp [hp]
  · rw [hR]
  · rw [hR]
  · rw [hR]
  · rw [hR]
  · intro seg hseg
    rw [hR]
    have := hmax seg hseg
    simp only [TrackingState.currentSegmentIndex]
    omega

/-- Witness for C6 at the scenario's first paused state
(`pauseStartTime = 3000`), resumed at 4000. -/
theorem resume_semantics_witness :
    scenPause1.isPaused = true ∧ scenPause1.pauseStartTime = some 3000 ∧
    (handlePauseResume distZero scenPause1 4000 true).totalPausedTime =
      scenPause1.totalPausedTime + (4000 - 3000) ∧
    (handlePauseResume distZero scenPause1 4000 true).currentSegmentIndex =
      scenPause1.currentSegmentIndex + 1 :=
  ⟨by decide, by decide,
    (resume_semantics distZero scenPause1 4000 3000 (by decide) (by decide)
      (by decide) (by decide)).2.1,
    (resume_semantics distZero scenPause1 4000 3000 (by decide) (by decide)
      (by decide) (by decide)).2.2.2.1⟩

/-- C7: elapsed-time accounting.  While Paused the tick effect leaves the
state (and its `elapsedTime`) untouched; while Tracking with a truthy
`startTime = st`, each tick recomputes `elapsedTime` to
`⌊(now − st − totalPausedTime) / 1000⌋` (the source value is in seconds,
whence the floor division by 1000). -/
theorem elapsed_time_accounting (s : TrackingState) (now : Int) :
    (s.isPaused = true → elapsedTick s now = s) ∧
    (∀ st, s.isTracking = true → s.isPaused = false → s.startTime = some st →
      st ≠ 0 →
      (elapsedTick s now).elapsedTime =
        Int.fdiv (now - st - s.totalPausedTime) 1000) := by
  constructor
  · intro h
    unfold elapsedTick
    cases hst : s.startTime with
    | none => rfl
    | some st => simp [h]
  · intro st ht hp hst hz
    simp [elapsedTick, hst, ht, hp, hz]

/-- Witness for C7: the tick is frozen on the scenario's paused state and
recomputes the elapsed seconds on the tracking state after the first
fix. -/
theorem elapsed_time_accounting_witness :
    (scenPause1.isPaused = true ∧ elapsedTick scenPause1 9000 = scenPause1) ∧
    (scenFix1.isTracking = true ∧ scenFix1.startTime = some 1000 ∧
      (elapsedTick scenFix1 9000).elapsedTime =
        Int.fdiv (9000 - 1000 - scenFix1.totalPausedTime) 1000) :=
  ⟨⟨by decide, (elapsed_time_accounting scenPause1 9000).1 (by decide)⟩,
   ⟨by decide, by decide,
      (elapsed_time_accounting scenFix1 9000).2 1000 (by decide) (by decide)
        (by decide) (by decide)⟩⟩

/-- C10: recovery sets `pauseStartTime` to the wall-clock time `r` at
which recovery runs (not to any persisted pause timestamp), so a later
Resume at time `t` adds exactly `t − r` to the snapshot's
`totalPausedTime`. -/
theorem recovery_pause_clock_restarts (d : Int → Int → Int → Int → Rat)
    (s : TrackingState) (dta : TrackingSnapshot) (r t : Int)
    (h : dta.isTracking = true) (hr : r ≠ 0) :
    (loadExistingTrackingData s (some dta) r).pauseStartTime = some r ∧
    (handlePauseResume d (loadExistingTrackingData s (some dta) r) t
        true).totalPausedTime = dta.totalPausedTime + (t - r) := by
  simp [loadExistingTrackingData, h, handlePauseResume, hr]


/-- Witness for C10: recovery at 4000 then resume at 9000 adds 5000 ms,
ignoring the snapshot's own `pauseStartTime = 2000`. -/
theorem recovery_pause_clock_restarts_witness :
    c10Snap.isTracking = true ∧ c10Snap.pauseStartTime = some 2000 ∧
    (loadExistingTrackingData initialTrackingState (some c10Snap) 4000).pauseStartTime
      = some 4000 ∧
    (handlePauseResume distZero
        (loadExistingTrackingData initialTrackingState (some c10Snap) 4000)
        9000 true).totalPausedTime = c10Snap.totalPausedTime + (9000 - 4000) :=
  ⟨by decide, by decide,
    (recovery_pause_clock_restarts distZero initialTrackingState c10Snap 4000 9000
      (by decide) (by decide)).1,
    (recovery_pause_clock_restarts distZero initialTrackingState c10Snap 4000 9000
      (by decide) (by decide)).2⟩

/-- C2 counterexample: invoking Start (permissions granted, watchers
started) while a session is actively Tracking does not fail fast and does
not leave the existing session unchanged — it silently replaces the
active session (fresh run id, empty route). -/
theorem start_while_active_not_failfast_cex :
    scenFix1.isTracking = true ∧
    (handleStartRun scenFix1 none true 9000 true).1 ≠ scenFix1 ∧
    (handleStartRun scenFix1 none true 9000 true).1.currentRunId = some "run_9000" ∧
    scenFix1.currentRunId = some "run_1000" ∧
    (handleStartRun scenFix1 none true 9000 true).1.route = [] ∧
    scenFix1.route ≠ [] := by decide

/-- C2 amended: `handleStartRun` performs no active-session check.  With
permissions granted and the watchers starting successfully, it replaces
whatever session state existed with a fresh Tracking session and a fresh
snapshot — the result is independent of the prior state `s`.  The only
guard against starting over an active run is at the UI layer, which
renders the Start control only when `isTracking` is false. -/
theorem start_replaces_session_unconditionally (s : TrackingState)
    (store : Option TrackingSnapshot) (now : Int) :
    handleStartRun s store true now true =
      ({ isTracking := true
         isPaused := false
         startTime := some now
         totalPausedTime := 0
         pauseStartTime := none
         currentRunId := some ("run_" ++ toString now)
         route := []
         currentSegmentIndex := 0
         currentSegmentStartTime := some now
         segments := []
         elapsedTime := 0
         lastLocationTime := now },
       some
         { id := "run_" ++ toString now
           startTime := now
           route := []
           isTracking := true
           isPaused := false
           currentSegmentIndex := 0
           totalPausedTime := 0
           pauseStartTime := none
           currentSegmentStartTime := some now
           elapsedTime := 0 }) := rfl

/-- C3 counterexample: the pause/resume handler is a toggle, not an
idempotent Pause.  On the reachable paused state `scenPause1` (GPS
available) invoking it again is not a no-op — it resumes; and starting
from the reachable tracking state `scenFix1`, invoking it twice in a row
does not equal invoking it once (the second call resumes). -/
theorem pause_not_idempotent_cex :
    scenPause1.isPaused = true ∧
    handlePauseResume distZero scenPause1 4000 true ≠ scenPause1 ∧
    (handlePauseResume distZero scenPause1 4000 true).isPaused = false ∧
    scenFix1.isPaused = false ∧
    (handlePauseResume distZero scenFix1 3000 true).isPaused = true ∧
    handlePauseResume distZero (handlePauseResume distZero scenFix1 3000 true)
        4000 true ≠ handlePauseResume distZero scenFix1 3000 true := by decide

/-- C3 amended: invoking the pause/resume handler while the session is
already Paused never re-pauses.  If the location-availability check fails
it is a no-op (state unchanged, so repeated invocations in that situation
yield the same state); if it succeeds the handler performs Resume, so
`isPaused` becomes false — two consecutive invocations toggle rather
than idempotently pause. -/
theorem pauseResume_on_paused_toggles (d : Int → Int → Int → Int → Rat)
    (s : TrackingState) (now : Int) (h : s.isPaused = true) :
    handlePauseResume d s now false = s ∧
    (handlePauseResume d s now true).isPaused = false := by
  unfold handlePauseResume
  exact ⟨by simp [h], by simp [h]⟩

/-- Witness for the amended C3 at the reachable paused state
`scenPause1`. -/
theorem pauseResume_on_paused_toggles_witness :
    scenPause1.isPaused = true ∧
    handlePauseResume distZero scenPause1 4000 false = scenPause1 ∧
    (handlePauseResume distZero scenPause1 4000 true).isPaused = false :=
  ⟨by decide,
    (pauseResume_on_paused_toggles distZero scenPause1 4000 (by decide)).1,
    (pauseResume_on_paused_toggles distZero scenPause1 4000 (by decide)).2⟩

/-- C9 counterexample: when the watchers fail to start, Start deletes the
snapshot and drops the tracking flags, but it does not clear all
in-memory session state — `currentSegmentStartTime` (and the
`lastLocationTime` ref) retain the aborted start's timestamp, so the
resulting state differs from the pre-start idle state. -/
theorem start_rollback_not_full_clear_cex :
    (handleStartRun initialTrackingState none true 5000 false).2 = none ∧
    (handleStartRun initialTrackingState none true 5000 false).1.isTracking = false ∧
    (handleStartRun initialTrackingState none true 5000 false).1 ≠ initialTrackingState ∧
    (handleStartRun initialTrackingState none true 5000
        false).1.currentSegmentStartTime = some 5000 ∧
    initialTrackingState.currentSegmentStartTime = none := by decide

/-- C9 amended: a watcher start failure during Start rolls back the
tracking flags, start time, run id, route, segment index, elapsed and
paused accumulators, and deletes the just-written snapshot, so no active
(`isTracking`) session remains; `currentSegmentStartTime` and the
`lastLocationTime` ref are the only session fields not reset — they keep
the aborted start's timestamp.  The result is independent of the prior
state `s`. -/
theorem start_watcher_failure_rollback (s : TrackingState)
    (store : Option TrackingSnapshot) (now : Int) :
    handleStartRun s store true now false =
      ({ initialTrackingState with
          currentSegmentStartTime := some now
          lastLocationTime := now },
        none) := rfl

/-- C4 counterexample: duplicate-timestamp suppression does not apply to
the foreground source.  In the reachable state `c4Resumed` the session's
recorded coordinates already contain the background sample with timestamp
5000, yet the same underlying fix delivered through the foreground path
(`watchCallback` accepts it, then `handleLocationUpdate` appends it) is
accepted, leaving two samples with identical timestamp 5000. -/
theorem foreground_duplicate_timestamp_accepted_cex :
    (existingTimestamps c4Resumed.route).contains 5000 = true ∧
    (watchCallback 0 c4Raw 7300).1 =
      some { latitude := 50, longitude := 30, timestamp := some 5000 } ∧
    (handleLocationUpdate c4Resumed
        { latitude := 50, longitude := 30, timestamp := some 5000 }
        7300 false).route =
      c4Resumed.route ++
        [{ latitude := 50, longitude := 30, timestamp := 5000,
           source := LocationSource.foreground, segmentIndex := 1 }] ∧
    ((handleLocationUpdate c4Resumed
        { latitude := 50, longitude := 30, timestamp := some 5000 }
        7300 false).route.filter (fun c => c.timestamp == 5000)).length = 2 := by
  decide

/-- C4 amended: only the background path suppresses duplicates.  A
background fix whose (truthy) timestamp already occurs among the stored
route's truthy timestamps never reaches the route: the background task
leaves the stored snapshot unchanged.  The foreground path performs no
duplicate-timestamp check, so a foreground fix duplicating a recorded
timestamp is accepted (see the counterexample). -/
theorem background_duplicate_timestamp_rejected (dta : TrackingSnapshot)
    (l : RawLocation) (now lastProcessed : Int) (ht : l.timestamp ≠ 0)
    (hdup : (existingTimestamps dta.route).contains l.timestamp = true) :
    (backgroundLocationTask (some dta) [l] now lastProcessed).1 = some dta := by
  unfold backgroundLocationTask
  by_cases hflag : (!dta.isTracking || dta.isPaused) = true
  · simp [hflag]
  · by_cases hacc : bgAccept now lastProcessed l = true
    · have hts : (bgProcess now l).timestamp = l.timestamp := by
        simp [bgProcess, ht]
      have hmem : l.timestamp ∈ existingTimestamps dta.route := by
        simpa using hdup
      simp [hflag, hacc, hts, hmem]
    · simp [hflag, hacc]

/-- Witness for the amended C4: the snapshot `c4DupSnap` already holds a
sample with timestamp 5000, and a second background fix with the same
timestamp leaves the store unchanged. -/
theorem background_duplicate_timestamp_rejected_witness :
    c4Raw.timestamp ≠ 0 ∧
    (existingTimestamps c4DupSnap.route).contains c4Raw.timestamp = true ∧
    (backgroundLocationTask (some c4DupSnap) [c4Raw] 5200 0).1 = some c4DupSnap :=
  ⟨by decide, by decide,
    background_duplicate_timestamp_rejected c4DupSnap c4Raw 5200 0
      (by decide) (by decide)⟩

/-- Anything in an insertion came from the inserted element or the
original list. -/
theorem mem_insertBySegmentIndex {x s : RouteSegment} {l : List RouteSegment}
    (h : x ∈ insertBySegmentIndex s l) : x = s ∨ x ∈ l := by
  induction l with
  | nil => simpa [insertBySegmentIndex] using h
  | cons t ts ih =>
    unfold insertBySegmentIndex at h
    by_cases hle : s.segmentIndex ≤ t.segmentIndex
    · rw [if_pos hle, List.mem_cons] at h
      rcases h with h | h
      · exact Or.inl h
      · exact Or.inr h
    · rw [if_neg hle, List.mem_cons] at h
      rcases h with h | h
      · exact Or.inr (by rw [h]; exact List.mem_cons_self t ts)
      · rcases ih h with h1 | h1
        · exact Or.inl h1
        · exact Or.inr (List.mem_cons_of_mem t h1)

/-- Inserting a segment whose index is absent from a strictly ascending
list keeps the list strictly ascending. -/
theorem pairwise_insertBySegmentIndex {s : RouteSegment} {l : List RouteSegment}
    (hl : l.Pairwise (fun a b => a.segmentIndex < b.segmentIndex))
    (hs : s.segmentIndex ∉ l.map RouteSegment.segmentIndex) :
    (insertBySegmentIndex s l).Pairwise
      (fun a b => a.segmentIndex < b.segmentIndex) := by
  induction l with
  | nil => simp [insertBySegmentIndex]
  | cons t ts ih =>
    rw [List.pairwise_cons] at hl
    obtain ⟨ht, hts⟩ := hl
    simp only [List.map_cons, List.mem_cons] at hs
    push_neg at hs
    obtain ⟨hst, hsts⟩ := hs
    unfold insertBySegmentIndex
    by_cases hle : s.segmentIndex ≤ t.segmentIndex
    · rw [if_pos hle]
      refine List.Pairwise.cons ?_ (List.Pairwise.cons ht hts)
      intro u hu
      rw [List.mem_cons] at hu
      rcases hu with hu | hu
      · rw [hu]
        exact lt_of_le_of_ne hle hst
      · exact lt_of_le_of_lt hle (ht u hu)
    · rw [if_neg hle]
      refine List.Pairwise.cons ?_ (ih hts hsts)
      intro u hu
      rcases mem_insertBySegmentIndex hu with h1 | h1
      · rw [h1]
        exact Nat.lt_of_not_le hle
      · exact ht u h1

/-- Anything in the sorted list came from the original list. -/
theorem mem_sortBySegmentIndex {x : RouteSegment} {l : List RouteSegment}
    (h : x ∈ sortBySegmentIndex l) : x ∈ l := by
  induction l with
  | nil => simp [sortBySegmentIndex] at h
  | cons s ss ih =>
    unfold sortBySegmentIndex at h
    rcases mem_insertBySegmentIndex h with h1 | h1
    · rw [h1]
      exact List.mem_cons_self s ss
    · exact List.mem_cons_of_mem s (ih h1)

/-- Sorting a list of segments with pairwise-distinct indices yields a
strictly ascending list. -/
theorem pairwise_sortBySegmentIndex {l : List RouteSegment}
    (h : (l.map RouteSegment.segmentIndex).Nodup) :
    (sortBySegmentIndex l).Pairwise
      (fun a b => a.segmentIndex < b.segmentIndex) := by
  induction l with
  | nil => simp [sortBySegmentIndex]
  | cons s ss ih =>
    simp only [List.map_cons, List.nodup_cons] at h
    obtain ⟨hs, hss⟩ := h
    unfold sortBySegmentIndex
    apply pairwise_insertBySegmentIndex (ih hss)
    intro hmem
    obtain ⟨u, hu, hui⟩ := List.mem_map.mp hmem
    exact hs (List.mem_map.mpr ⟨u, mem_sortBySegmentIndex hu, hui⟩)

/-- A fold of `segmentKeysStep` starting from a duplicate-free key list
stays duplicate-free. -/
theorem nodup_foldl_segmentKeysStep (coordinates : List RouteCoordinate) :
    ∀ ks : List Nat, ks.Nodup →
      (coordinates.foldl segmentKeysStep ks).Nodup := by
  induction coordinates with
  | nil =>
    intro ks h
    rw [List.foldl_nil]
    exact h
  | cons c cs ih =>
    intro ks h
    rw [List.foldl_cons]
    unfold segmentKeysStep
    by_cases hc : ks.contains c.segmentIndex
    · rw [if_pos hc]
      exact ih ks h
    · rw [if_neg hc]
      apply ih
      have hnotmem : c.segmentIndex ∉ ks := by simpa using hc
      simp [List.nodup_append, h, hnotmem]

/-- The key list built by coordinatesToSegments has no duplicates. -/
theorem nodup_segmentKeys (coordinates : List RouteCoordinate) :
    (segmentKeys coordinates).Nodup :=
  nodup_foldl_segmentKeysStep coordinates [] List.nodup_nil

/-- The derived segment keeps exactly the key it was built for. -/
theorem mkDerivedSegment_segmentIndex (d : Int → Int → Int → Int → Rat)
    (k : Nat) (segmentCoords : List RouteCoordinate) :
    (mkDerivedSegment d k segmentCoords).segmentIndex = k := rfl

/-- C8 counterexample: segment indices derived from the recorded
coordinates are not always dense.  `scenFix2` is reached from a fresh
start by fix, pause, resume, pause (no fix accepted during segment 1),
resume, fix; its route holds coordinates for segment indices 0 and 2
only, and `coordinatesToSegments` yields indices `[0, 2]`, so
`segments[1].index = 2 ≠ 1`. -/
theorem segment_indices_not_dense_cex :
    scenFix2.route.map (fun c => c.segmentIndex) = [0, 2] ∧
    (coordinatesToSegments distZero scenFix2.route).map
        RouteSegment.segmentIndex = [0, 2] ∧
    ¬ ∀ (i : Nat) (seg : RouteSegment),
        (coordinatesToSegments distZero scenFix2.route).get? i = some seg →
        seg.segmentIndex = i := by
  refine ⟨by decide, by decide, ?_⟩
  intro hall
  have hget : ((coordinatesToSegments distZero scenFix2.route).get? 1).map
      RouteSegment.segmentIndex = some 2 := by decide
  cases hq : (coordinatesToSegments distZero scenFix2.route).get? 1 with
  | none =>
    rw [hq] at hget
    simp at hget
  | some seg =>
    have hone := hall 1 seg hq
    rw [hq] at hget
    simp at hget
    rw [hone] at hget
    exact absurd hget (by decide)

/-- C8 amended: the segments derived by `coordinatesToSegments` are
strictly ascending in `segmentIndex` (each index occurs once, in sorted
order), so `segments[i].index = i` holds exactly when every index up to
the maximum occurs among the coordinates; an index allocated by a resume
during which no sample was accepted does not occur, producing a gap (see
the counterexample). -/
theorem derived_segments_strictly_sorted (d : Int → Int → Int → Int → Rat)
    (coordinates : List RouteCoordinate) :
    (coordinatesToSegments d coordinates).Pairwise
      (fun a b => a.segmentIndex < b.segmentIndex) := by
  unfold coordinatesToSegments
  apply pairwise_sortBySegmentIndex
  rw [List.map_map]
  have hcomp :
      (RouteSegment.segmentIndex ∘ fun k =>
        mkDerivedSegment d k (coordinates.filter (fun c => c.segmentIndex == k)))
      = fun k => k := by
    funext k
    simp [Function.comp, mkDerivedSegment_segmentIndex]
  rw [hcomp]
  simpa using nodup_segmentKeys coordinates
